import Mathlib

/-!
Verification of the RNK Vortex System Optimizer standalone VQ Bridge Server
(the WebSocket effect relay), shallowly embedded from the JavaScript source.

Modelling conventions:
* JS numbers are rationals.  A numeric field that can become non-finite
  (NaN or Infinity, which in this program arises only from the modulo and
  divisions by `parameters.spiralLayers`) is modelled as `Option ℚ`, with
  `none` standing for a non-finite value; fields whose defining expression
  can never be non-finite are plain `ℚ`.
* `Math.cos`, `Math.sin`, `Math.PI`, `Math.random` and the wall clock are
  impure or transcendental, so they are supplied through an `Env` record:
  `rand k` is the value of the k-th `Math.random()` call (the generator
  draws five randoms per particle, in source order), and the cosine/sine
  oracles are applied to the same rational arguments the source builds.
* A connection is identified by a natural number.  The server state holds
  the roster of currently open connections (the source keeps the same set
  twice, as the `clients` Set and as `wss.clients`; both add on connection
  and drop on close, so one list models both) and the global message
  counter.  The message handler returns the new state together with the
  list of (recipient, message) sends it performs, in order.
-/

/-- Position record of an `EffectConfig` (`config.position`). -/
structure Position where
  x : ℚ
  y : ℚ
  deriving DecidableEq, Repr

/-- Parameter record of an `EffectConfig` (`config.parameters`). -/
structure EffectParameters where
  particleCount : ℕ
  spiralLayers : ℕ
  duration : ℚ
  colorScheme : String
  deriving DecidableEq, Repr

/-- `EffectConfig` as destructured by `generateTornadoEffect`. -/
structure EffectConfig where
  position : Position
  parameters : EffectParameters
  deriving DecidableEq, Repr

/-- One generated particle, mirroring the object pushed at lines 64-82 of
the source.  Fields that can carry a non-finite JS number (exactly those
whose defining expression involves `i % spiralLayers` or a division by
`spiralLayers`) are `Option ℚ`. -/
structure Particle where
  id : ℕ
  x : Option ℚ
  y : ℚ
  z : Option ℚ
  vx : Option ℚ
  vy : ℚ
  vz : Option ℚ
  ax : ℚ
  ay : ℚ
  az : ℚ
  radius : Option ℚ
  color : String
  life : ℚ
  layer : Option ℕ
  turbulence : ℚ
  rotation : ℚ
  rotationSpeed : ℚ
  deriving DecidableEq, Repr, Inhabited

/-- The fixed `advancedPhysics` block of the render result. -/
structure AdvancedPhysics where
  gravity : ℚ
  windForce : ℚ
  vortexStrength : ℚ
  turbulenceScale : ℚ
  deriving DecidableEq, Repr

/-- The aggregate returned by `generateTornadoEffect`. -/
structure RenderedEffect where
  position : Position
  particles : List Particle
  duration : ℚ
  spiralLayers : ℕ
  particleCount : ℕ
  colorScheme : String
  physics : Bool
  lighting : Bool
  renderQuality : String
  gpuAccelerated : Bool
  serverRendered : Bool
  renderTime : ℕ
  advancedPhysics : AdvancedPhysics
  deriving DecidableEq, Repr

/-- Environment supplying the impure/transcendental primitives the source
calls: trigonometric oracles, `Math.PI`, the `Math.random` stream, the
measured render duration (`Date.now()` difference), the timestamp used in
outbound envelopes, and the listening port. -/
structure Env where
  cos : ℚ → ℚ
  sin : ℚ → ℚ
  pi : ℚ
  rand : ℕ → ℚ
  renderTime : ℕ
  now : ℕ
  port : ℕ

/-- JavaScript `%` on the nonnegative integers the source feeds it:
`i % L` is ordinary remainder for `L > 0` and NaN (`none`) for `L = 0`. -/
def jsModNat (i L : ℕ) : Option ℕ :=
  if L = 0 then none else some (i % L)

/-- `spiralRadius` of line 35: `40 + (layerIndex * 60)`. -/
def spiralRadius (layerIndex : ℕ) : ℚ :=
  40 + (layerIndex : ℚ) * 60

/-- `radiusScale` of line 32: `layerIndex / parameters.spiralLayers`
(meaningful for `spiralLayers > 0`; the `spiralLayers = 0` case is NaN and
is handled by the `Option` lifting at the use site). -/
def radiusScale (layerIndex L : ℕ) : ℚ :=
  (layerIndex : ℚ) / (L : ℚ)

/-- The particle `radius` expression of line 75: `8 - (radiusScale * 4)`. -/
def particleRadius (layerIndex L : ℕ) : ℚ :=
  8 - radiusScale layerIndex L * 4

/-- The color selection of lines 50-62: one uniform sample compared
against the thresholds 0.85, 0.7, 0.5, 0.3. -/
def fireColor (colorRand : ℚ) : String :=
  if colorRand > 0.85 then "#ffffff"
  else if colorRand > 0.7 then "#ffff99"
  else if colorRand > 0.5 then "#ffaa00"
  else if colorRand > 0.3 then "#ff6600"
  else "#cc3300"

/-- One iteration of the particle loop (lines 29-83).  The five
`Math.random()` calls of iteration `i` are draws `5*i` (heightVariance),
`5*i+1` (baseSpeed), `5*i+2` (colorRand), `5*i+3` (rotation) and `5*i+4`
(rotationSpeed).  The division by `particleCount` in `angle` is only ever
reached with `i < particleCount`, so it is a division by a positive
integer at every call site. -/
def mkParticle (env : Env) (position : Position) (parameters : EffectParameters)
    (i : ℕ) : Particle :=
  let layerIndex : Option ℕ := jsModNat i parameters.spiralLayers
  let angle : ℚ := (i : ℚ) / (parameters.particleCount : ℚ) * env.pi * 2
  let spiralR : Option ℚ := layerIndex.map spiralRadius
  let heightVariance : ℚ := env.rand (5 * i) * 150 - 75
  let rotationOffset : Option ℚ :=
    layerIndex.map fun l => (l : ℚ) * (env.pi * 2 / (parameters.spiralLayers : ℚ))
  let baseSpeed : ℚ := 150 + env.rand (5 * i + 1) * 100
  let velocityX : Option ℚ := rotationOffset.map fun ro => env.cos (angle + ro) * baseSpeed
  let velocityY : ℚ := heightVariance * 30
  let velocityZ : Option ℚ := rotationOffset.map fun ro => env.sin (angle + ro) * baseSpeed
  let centerPull : ℚ := 0.3
  let turbulence : ℚ := 0.8
  let color : String := fireColor (env.rand (5 * i + 2))
  { id := i
    x := spiralR.map fun sr => position.x + env.cos angle * sr
    y := position.y + heightVariance
    z := spiralR.map fun sr => env.sin angle * sr
    vx := velocityX
    vy := velocityY
    vz := velocityZ
    ax := -env.cos angle * centerPull
    ay := 50
    az := -env.sin angle * centerPull
    radius := layerIndex.map fun l => particleRadius l parameters.spiralLayers
    color := color
    life := 1
    layer := layerIndex
    turbulence := turbulence
    rotation := env.rand (5 * i + 3) * env.pi * 2
    rotationSpeed := (env.rand (5 * i + 4) - 0.5) * 10 }

/-- `generateTornadoEffect` (lines 21-107): builds `particleCount`
particles and returns them with the echoed configuration, the fixed
quality flags and the measured render time. -/
def generateTornadoEffect (env : Env) (config : EffectConfig) : RenderedEffect :=
  let particles :=
    (List.range config.parameters.particleCount).map
      (mkParticle env config.position config.parameters)
  { position := config.position
    particles := particles
    duration := config.parameters.duration
    spiralLayers := config.parameters.spiralLayers
    particleCount := config.parameters.particleCount
    colorScheme := config.parameters.colorScheme
    physics := true
    lighting := true
    renderQuality := "ultra"
    gpuAccelerated := true
    serverRendered := true
    renderTime := env.renderTime
    advancedPhysics :=
      { gravity := -9.81
        windForce := 0.5
        vortexStrength := 2.0
        turbulenceScale := 0.8 } }

/-- A decoded (well-formed JSON) inbound message as the dispatch at lines
121 and 151 inspects it: the `command` / `effectType` / `effectId` /
`config` properties, each possibly absent. -/
structure ParsedMsg where
  command : Option String
  effectType : Option String
  effectId : Option ℕ
  config : Option EffectConfig
  deriving DecidableEq, Repr

/-- The three outbound JSON shapes of the server (lines 125-132, 137-143,
153-159).  The broadcast envelope carries only the position and the
original parameters: by construction it has no particle field. -/
inductive OutMsg where
  | effectRendered (effectType : String) (effectId : Option ℕ)
      (renderTime : ℕ) (data : RenderedEffect) (timestamp : ℕ)
  | effectBroadcast (effectType : String) (position : Position)
      (config : EffectParameters) (timestamp : ℕ)
  | response (original : ParsedMsg) (processed : Bool) (port : ℕ) (timestamp : ℕ)
  deriving DecidableEq, Repr

/-- Whether an outbound message is an effect broadcast. -/
def OutMsg.isBroadcast : OutMsg → Bool
  | .effectBroadcast _ _ _ _ => true
  | _ => false

/-- Process-wide server state (lines 17-18): the roster of currently open
connections, in insertion order, and the cumulative message counter. -/
structure ServerState where
  clients : List ℕ
  messageCount : ℕ
  deriving DecidableEq, Repr

/-- The state at process start: no connections, zero messages. -/
def initialState : ServerState :=
  { clients := [], messageCount := 0 }

/-- `wss.on connection` (line 110): `clients.add(ws)` — a Set add, so a
connection already present is not duplicated. -/
def accept (st : ServerState) (c : ℕ) : ServerState :=
  { st with clients := if c ∈ st.clients then st.clients else st.clients ++ [c] }

/-- `ws.on close` (line 168): `clients.delete(ws)`. -/
def closeConn (st : ServerState) (c : ℕ) : ServerState :=
  { st with clients := st.clients.erase c }

/-- The message handler (lines 115-164).  `sender` is the connection the
message arrived on; `raw` is `none` when `JSON.parse` throws.  The counter
is incremented before the parse attempt.  In the render branch a missing
`config` makes the destructuring at line 22 throw, which the surrounding
try/catch swallows before any send; otherwise the direct reply is sent
first, then one broadcast per other open connection, in roster order (the
`readyState === OPEN` test of line 146 is subsumed by the roster holding
exactly the open connections). -/
def handleMessage (env : Env) (st : ServerState) (sender : ℕ)
    (raw : Option ParsedMsg) : ServerState × List (ℕ × OutMsg) :=
  let st := { st with messageCount := st.messageCount + 1 }
  match raw with
  | none => (st, [])
  | some parsed =>
    if parsed.command = some "render_effect" ∧ parsed.effectType = some "fire_tornado" then
      match parsed.config with
      | none => (st, [])
      | some config =>
        let effectData := generateTornadoEffect env config
        let reply : ℕ × OutMsg :=
          (sender, .effectRendered "fire_tornado" parsed.effectId
            effectData.renderTime effectData env.now)
        let broadcast : OutMsg :=
          .effectBroadcast "fire_tornado" config.position config.parameters env.now
        (st, reply :: (st.clients.filter (fun c => c ≠ sender)).map fun c => (c, broadcast))
    else
      (st, [(sender, .response parsed true env.port env.now)])

/-! Concrete instances used by witnesses and counterexamples. -/

/-- A concrete environment: constant trigonometric oracles and a constant
random stream. -/
def env0 : Env :=
  { cos := fun _ => 1
    sin := fun _ => 0
    pi := 314/100
    rand := fun _ => 1/2
    renderTime := 3
    now := 7
    port := 8765 }

/-- A concrete valid configuration: 6 particles over 3 spiral layers. -/
def cfg6 : EffectConfig :=
  { position := { x := 10, y := 20 }
    parameters :=
      { particleCount := 6, spiralLayers := 3, duration := 2, colorScheme := "fire" } }

/-- A render command carrying `cfg6`. -/
def renderMsg6 : ParsedMsg :=
  { command := some "render_effect"
    effectType := some "fire_tornado"
    effectId := some 42
    config := some cfg6 }

/-- A degenerate configuration with `spiralLayers = 0` and one particle. -/
def cfgZeroL : EffectConfig :=
  { position := { x := 0, y := 0 }
    parameters :=
      { particleCount := 1, spiralLayers := 0, duration := 2, colorScheme := "fire" } }

/-- A render command carrying the degenerate `cfgZeroL`. -/
def msgZeroL : ParsedMsg :=
  { command := some "render_effect"
    effectType := some "fire_tornado"
    effectId := some 1
    config := some cfgZeroL }

/-- A generic well-formed message that is not a render command. -/
def pingMsg : ParsedMsg :=
  { command := some "ping", effectType := none, effectId := none, config := none }

/-- A server state with a single open connection `0`. -/
def stA : ServerState := { clients := [0], messageCount := 0 }

/-- A server state with three open connections `0`, `1`, `2`. -/
def st012 : ServerState := { clients := [0, 1, 2], messageCount := 5 }

/-! Helper lemmas. -/

/-- Indexing with a default into a mapped range below its length. -/
theorem getD_map_range {α : Type} (f : ℕ → α) (d : α) (N i : ℕ) (hi : i < N) :
    ((List.range N).map f).getD i d = f i := by
  have h : i < ((List.range N).map f).length := by simpa using hi
  rw [List.getD_eq_getElem _ _ h]
  simp

/-- Claim C1: for every valid configuration with positive `particleCount`
and `spiralLayers`, `generateTornadoEffect` returns exactly
`particleCount` particles, and the particle at index `i` has layer
`i % spiralLayers`, which lies in `[0, spiralLayers)`. -/
theorem generateTornadoEffect_count_and_layers (env : Env) (config : EffectConfig)
    (_hN : 0 < config.parameters.particleCount)
    (hL : 0 < config.parameters.spiralLayers) :
    (generateTornadoEffect env config).particles.length
        = config.parameters.particleCount ∧
    ∀ i : ℕ, i < config.parameters.particleCount →
      ((generateTornadoEffect env config).particles.getD i default).layer
          = some (i % config.parameters.spiralLayers) ∧
      i % config.parameters.spiralLayers < config.parameters.spiralLayers := by
  refine ⟨by simp [generateTornadoEffect], fun i hi => ⟨?_, Nat.mod_lt i hL⟩⟩
  have h : (generateTornadoEffect env config).particles
      = (List.range config.parameters.particleCount).map
          (mkParticle env config.position config.parameters) := by
    simp [generateTornadoEffect]
  rw [h, getD_map_range _ _ _ _ hi]
  simp [mkParticle, jsModNat, hL.ne']

/-- Witness for C1 at a concrete input: `cfg6` has 6 particles over 3
layers, and particle 4 sits on layer `4 % 3 = 1`. -/
theorem generateTornadoEffect_count_and_layers_witness :
    (generateTornadoEffect env0 cfg6).particles.length = 6 ∧
    ((generateTornadoEffect env0 cfg6).particles.getD 4 default).layer = some 1 := by
  obtain ⟨h1, h2⟩ :=
    generateTornadoEffect_count_and_layers env0 cfg6 (by decide) (by decide)
  exact ⟨h1, (h2 4 (by decide)).1⟩

/-- Claim C10: the particle list is ordered by construction index — the
ids read off the list are exactly `0, 1, …, particleCount - 1`, pairwise
distinct, and the particle at position `i` has id `i`. -/
theorem generateTornadoEffect_ids (env : Env) (config : EffectConfig) :
    ((generateTornadoEffect env config).particles.map Particle.id)
        = List.range config.parameters.particleCount ∧
    ((generateTornadoEffect env config).particles.map Particle.id).Nodup ∧
    ∀ i : ℕ, i < config.parameters.particleCount →
      ((generateTornadoEffect env config).particles.getD i default).id = i := by
  have h : (generateTornadoEffect env config).particles
      = (List.range config.parameters.particleCount).map
          (mkParticle env config.position config.parameters) := by
    simp [generateTornadoEffect]
  have hid : ((generateTornadoEffect env config).particles.map Particle.id)
      = List.range config.parameters.particleCount := by
    rw [h, List.map_map]
    have : (Particle.id ∘ mkParticle env config.position config.parameters)
        = fun i => i := by
      funext i
      simp [mkParticle]
    rw [this, List.map_id']
  refine ⟨hid, by rw [hid]; exact List.nodup_range _, fun i hi => ?_⟩
  rw [h, getD_map_range _ _ _ _ hi]
  simp [mkParticle]

/-- Witness for C10 at a concrete input. -/
theorem generateTornadoEffect_ids_witness :
    ((generateTornadoEffect env0 cfg6).particles.map Particle.id) = List.range 6 ∧
    ((generateTornadoEffect env0 cfg6).particles.getD 2 default).id = 2 := by
  obtain ⟨h1, -, h3⟩ := generateTornadoEffect_ids env0 cfg6
  exact ⟨h1, h3 2 (by decide)⟩

/-- The five fire colors, from whitest core to reddish edge. -/
def fireColors : List String :=
  ["#ffffff", "#ffff99", "#ffaa00", "#ff6600", "#cc3300"]

/-- `fireColor` only ever produces one of the five fixed values. -/
theorem fireColor_mem (r : ℚ) : fireColor r ∈ fireColors := by
  unfold fireColor fireColors
  split_ifs <;> simp

/-- Claim C6: every particle color is one of the five fixed values; the
color of particle `i` is obtained by comparing the single uniform sample
drawn for it against the thresholds 0.85, 0.7, 0.5, 0.3, so the bands
(0.85, 1), (0.7, 0.85], (0.5, 0.7], (0.3, 0.5], [0, 0.3] select the five
colors, and their widths are 0.15, 0.15, 0.2, 0.2, 0.3. -/
theorem particle_color_bands (env : Env) (config : EffectConfig) :
    (∀ p ∈ (generateTornadoEffect env config).particles, p.color ∈ fireColors) ∧
    (∀ i : ℕ, i < config.parameters.particleCount →
      ((generateTornadoEffect env config).particles.getD i default).color
          = fireColor (env.rand (5 * i + 2))) ∧
    (∀ r : ℚ,
      (0.85 < r → fireColor r = "#ffffff") ∧
      (0.7 < r ∧ r ≤ 0.85 → fireColor r = "#ffff99") ∧
      (0.5 < r ∧ r ≤ 0.7 → fireColor r = "#ffaa00") ∧
      (0.3 < r ∧ r ≤ 0.5 → fireColor r = "#ff6600") ∧
      (r ≤ 0.3 → fireColor r = "#cc3300")) ∧
    ((1 : ℚ) - 0.85 = 0.15 ∧ (0.85 : ℚ) - 0.7 = 0.15 ∧ (0.7 : ℚ) - 0.5 = 0.2 ∧
      (0.5 : ℚ) - 0.3 = 0.2 ∧ (0.3 : ℚ) - 0 = 0.3) := by
  have h : (generateTornadoEffect env config).particles
      = (List.range config.parameters.particleCount).map
          (mkParticle env config.position config.parameters) := by
    simp [generateTornadoEffect]
  refine ⟨?_, ?_, ?_, by norm_num⟩
  · intro p hp
    rw [h] at hp
    obtain ⟨i, -, rfl⟩ := List.mem_map.mp hp
    have : (mkParticle env config.position config.parameters i).color
        = fireColor (env.rand (5 * i + 2)) := by
      simp [mkParticle]
    rw [this]
    exact fireColor_mem _
  · intro i hi
    rw [h, getD_map_range _ _ _ _ hi]
    simp [mkParticle]
  · intro r
    refine ⟨?_, ?_, ?_, ?_, ?_⟩
    · intro h1
      unfold fireColor
      rw [if_pos h1]
    · rintro ⟨h1, h2⟩
      unfold fireColor
      rw [if_neg (not_lt.mpr h2), if_pos h1]
    · rintro ⟨h1, h2⟩
      unfold fireColor
      rw [if_neg (not_lt.mpr (by linarith)), if_neg (not_lt.mpr h2), if_pos h1]
    · rintro ⟨h1, h2⟩
      unfold fireColor
      rw [if_neg (not_lt.mpr (by linarith)), if_neg (not_lt.mpr (by linarith)),
        if_neg (not_lt.mpr h2), if_pos h1]
    · intro h1
      unfold fireColor
      rw [if_neg (not_lt.mpr (by linarith)), if_neg (not_lt.mpr (by linarith)),
        if_neg (not_lt.mpr (by linarith)), if_neg (not_lt.mpr h1)]

/-- Witness for C6 at concrete inputs: the first particle of the concrete
render (sample 0.5) is orange, and samples in each band give the stated
colors. -/
theorem particle_color_bands_witness :
    ((generateTornadoEffect env0 cfg6).particles.getD 0 default).color
        = fireColor (env0.rand 2) ∧
    fireColor 0.9 = "#ffffff" ∧ fireColor 0.75 = "#ffff99" ∧
    fireColor 0.6 = "#ffaa00" ∧ fireColor 0.4 = "#ff6600" ∧
    fireColor 0.1 = "#cc3300" := by
  obtain ⟨-, h2, h3, -⟩ := particle_color_bands env0 cfg6
  exact ⟨h2 0 (by decide), (h3 0.9).1 (by norm_num),
    (h3 0.75).2.1 (by norm_num), (h3 0.6).2.2.1 (by norm_num),
    (h3 0.4).2.2.2.1 (by norm_num), (h3 0.1).2.2.2.2 (by norm_num)⟩

/-- Claim C8: for a valid configuration, each particle carries the spiral
radius `40 + 60 * layer` of its layer (inside its `x` and `z`
coordinates), which is strictly increasing in the layer index, and its
visual `radius` field equals `8 - 4 * (layer / spiralLayers)`, strictly
decreasing in the layer index. -/
theorem spiral_and_visual_radius (env : Env) (config : EffectConfig)
    (hL : 0 < config.parameters.spiralLayers) :
    (∀ i : ℕ, i < config.parameters.particleCount →
      ((generateTornadoEffect env config).particles.getD i default).radius
          = some (particleRadius (i % config.parameters.spiralLayers)
              config.parameters.spiralLayers) ∧
      ((generateTornadoEffect env config).particles.getD i default).x
          = some (config.position.x
              + env.cos ((i : ℚ) / (config.parameters.particleCount : ℚ) * env.pi * 2)
                * spiralRadius (i % config.parameters.spiralLayers))) ∧
    (∀ l : ℕ, spiralRadius l = 40 + (l : ℚ) * 60) ∧
    (∀ l₁ l₂ : ℕ, l₁ < l₂ → spiralRadius l₁ < spiralRadius l₂) ∧
    (∀ l : ℕ, particleRadius l config.parameters.spiralLayers
        = 8 - 4 * ((l : ℚ) / (config.parameters.spiralLayers : ℚ))) ∧
    (∀ l₁ l₂ : ℕ, l₁ < l₂ →
      particleRadius l₂ config.parameters.spiralLayers
        < particleRadius l₁ config.parameters.spiralLayers) := by
  have h : (generateTornadoEffect env config).particles
      = (List.range config.parameters.particleCount).map
          (mkParticle env config.position config.parameters) := by
    simp [generateTornadoEffect]
  have hLQ : (0 : ℚ) < (config.parameters.spiralLayers : ℚ) := by
    exact_mod_cast hL
  refine ⟨fun i hi => ?_, fun l => rfl, fun l₁ l₂ hll => ?_, fun l => by
    unfold particleRadius radiusScale; ring, fun l₁ l₂ hll => ?_⟩
  · rw [h, getD_map_range _ _ _ _ hi]
    constructor <;> simp [mkParticle, jsModNat, hL.ne']
  · have : (l₁ : ℚ) < (l₂ : ℚ) := by exact_mod_cast hll
    unfold spiralRadius
    linarith
  · have hq : (l₁ : ℚ) < (l₂ : ℚ) := by exact_mod_cast hll
    have hdiv : (l₁ : ℚ) / (config.parameters.spiralLayers : ℚ)
        < (l₂ : ℚ) / (config.parameters.spiralLayers : ℚ) :=
      div_lt_div_of_pos_right hq hLQ
    unfold particleRadius radiusScale
    linarith

/-- Witness for C8 at a concrete input: in `cfg6` (3 layers), particle 5
sits on layer 2 with visual radius `8 - 4 * (2/3)` and spiral radius
`40 + 2 * 60 = 160`; radii shrink while spiral radii grow from layer 1 to
layer 2. -/
theorem spiral_and_visual_radius_witness :
    ((generateTornadoEffect env0 cfg6).particles.getD 5 default).radius
        = some (particleRadius 2 3) ∧
    spiralRadius 1 < spiralRadius 2 ∧
    particleRadius 2 3 < particleRadius 1 3 := by
  obtain ⟨h1, -, h3, -, h5⟩ := spiral_and_visual_radius env0 cfg6 (by decide)
  exact ⟨(h1 5 (by decide)).1, h3 1 2 (by decide), h5 1 2 (by decide)⟩

/-- The sends of the handler depend on the state only through the roster:
two states with the same client list produce the same outbound traffic. -/
theorem handleMessage_sends_congr (env : Env) (st₁ st₂ : ServerState) (sender : ℕ)
    (raw : Option ParsedMsg) (hcl : st₁.clients = st₂.clients) :
    (handleMessage env st₁ sender raw).2 = (handleMessage env st₂ sender raw).2 := by
  cases raw with
  | none => rfl
  | some p =>
    by_cases h : p.command = some "render_effect" ∧ p.effectType = some "fire_tornado"
    · rcases hc : p.config with - | config <;> simp [handleMessage, h, hc, hcl]
    · simp [handleMessage, h]

/-- On every path the handler's only state change is the counter bump. -/
theorem handleMessage_state (env : Env) (st : ServerState) (sender : ℕ)
    (raw : Option ParsedMsg) :
    (handleMessage env st sender raw).1
        = { st with messageCount := st.messageCount + 1 } := by
  cases raw with
  | none => rfl
  | some p =>
    by_cases h : p.command = some "render_effect" ∧ p.effectType = some "fire_tornado"
    · rcases hc : p.config with - | config <;> simp [handleMessage, h, hc]
    · simp [handleMessage, h]

/-- Claim C9: handling any single inbound message — render request, echo
request, or malformed input — leaves the roster unchanged and increments
the message counter by exactly one. -/
theorem handleMessage_frame (env : Env) (st : ServerState) (sender : ℕ)
    (raw : Option ParsedMsg) :
    (handleMessage env st sender raw).1.clients = st.clients ∧
    (handleMessage env st sender raw).1.messageCount = st.messageCount + 1 := by
  rw [handleMessage_state env st sender raw]
  exact ⟨rfl, rfl⟩

/-- Claim C4: an unparseable message produces zero outbound messages while
still incrementing the counter, and the connection processes any
subsequent message exactly as it would have before. -/
theorem malformed_message_dropped (env : Env) (st : ServerState) (sender : ℕ) :
    handleMessage env st sender none
        = ({ st with messageCount := st.messageCount + 1 }, []) ∧
    ∀ (raw : Option ParsedMsg) (s : ℕ),
      (handleMessage env (handleMessage env st sender none).1 s raw).2
        = (handleMessage env st s raw).2 := by
  refine ⟨rfl, fun raw s => handleMessage_sends_congr env _ _ s raw ?_⟩
  rw [handleMessage_state env st sender none]

/-- Claim C5: any well-formed message that is not a fire-tornado render
command gets exactly one `response` echo back to the sender — carrying the
original payload, `processed := true` and the listening port — and nothing
is sent to anyone else. -/
theorem echo_reply (env : Env) (st : ServerState) (sender : ℕ) (p : ParsedMsg)
    (h : ¬(p.command = some "render_effect" ∧ p.effectType = some "fire_tornado")) :
    (handleMessage env st sender (some p)).2
        = [(sender, .response p true env.port env.now)] := by
  simp [handleMessage, h]

/-- Witness for C5: a `ping` message to the single-client server is echoed
back to its sender. -/
theorem echo_reply_witness :
    (handleMessage env0 stA 0 (some pingMsg)).2
        = [(0, .response pingMsg true env0.port env0.now)] :=
  echo_reply env0 stA 0 pingMsg (by decide)

/-- Anything in the broadcast fan-out list is addressed to an open
connection other than the sender and carries the broadcast payload. -/
theorem broadcast_mem (l : List ℕ) (s : ℕ) (msg : OutMsg) (m : ℕ × OutMsg)
    (hm : m ∈ (l.filter fun c => c ≠ s).map fun c => (c, msg)) :
    m.1 ∈ l ∧ m.1 ≠ s ∧ m.2 = msg := by
  obtain ⟨c, hc, rfl⟩ := List.mem_map.mp hm
  have h := List.mem_filter.mp hc
  exact ⟨h.1, by simpa using h.2, rfl⟩

/-- The broadcast fan-out never targets the sender. -/
theorem broadcast_filter_sender (l : List ℕ) (s : ℕ) (msg : OutMsg) :
    (((l.filter fun c => c ≠ s).map fun c => (c, msg)).filter fun m => m.1 = s) = [] := by
  rw [List.filter_eq_nil_iff]
  intro m hm
  simpa using (broadcast_mem l s msg m hm).2.1

/-- On a duplicate-free roster, the broadcast fan-out targets each open
connection other than the sender exactly once. -/
theorem broadcast_filter_other (l : List ℕ) (s b : ℕ) (msg : OutMsg)
    (hnd : l.Nodup) (hb : b ∈ l) (hbs : b ≠ s) :
    (((l.filter fun c => c ≠ s).map fun c => (c, msg)).filter fun m => m.1 = b)
      = [(b, msg)] := by
  rw [List.filter_map, List.filter_filter]
  have h2 : List.filter
      (fun a => ((fun m : ℕ × OutMsg => decide (m.1 = b)) ∘ fun c => (c, msg)) a
        && decide (a ≠ s)) l
      = List.filter (fun x => decide (x = b)) l := by
    apply List.filter_congr
    intro x hx
    by_cases hxb : x = b
    · subst hxb
      simp [Function.comp, hbs]
    · simp [Function.comp, hxb]
  rw [h2, List.filter_eq, List.count_eq_one_of_mem hnd hb]
  rfl

/-- Claim C2: a fire-tornado render command from connection `sender` gets
exactly one direct `effect_rendered` reply carrying the full rendered
effect (particle list included) and the render duration; every other open
connection gets exactly one `effect_broadcast` carrying only the position
and the original parameters; and no broadcast targets the sender. -/
theorem render_effect_reply_and_broadcast (env : Env) (st : ServerState) (sender : ℕ)
    (p : ParsedMsg) (config : EffectConfig)
    (hnd : st.clients.Nodup)
    (hc : p.command = some "render_effect")
    (he : p.effectType = some "fire_tornado")
    (hcfg : p.config = some config) :
    ((handleMessage env st sender (some p)).2.filter fun m => m.1 = sender)
        = [(sender, .effectRendered "fire_tornado" p.effectId
            (generateTornadoEffect env config).renderTime
            (generateTornadoEffect env config) env.now)] ∧
    (∀ b ∈ st.clients, b ≠ sender →
      ((handleMessage env st sender (some p)).2.filter fun m => m.1 = b)
          = [(b, .effectBroadcast "fire_tornado" config.position
              config.parameters env.now)]) ∧
    (∀ m ∈ (handleMessage env st sender (some p)).2,
      m.2.isBroadcast = true → m.1 ≠ sender) := by
  have hout : (handleMessage env st sender (some p)).2
      = (sender, OutMsg.effectRendered "fire_tornado" p.effectId
            (generateTornadoEffect env config).renderTime
            (generateTornadoEffect env config) env.now)
        :: ((st.clients.filter fun c => c ≠ sender).map fun c =>
            (c, OutMsg.effectBroadcast "fire_tornado" config.position
              config.parameters env.now)) := by
    simp [handleMessage, hc, he, hcfg]
  refine ⟨?_, ?_, ?_⟩
  · rw [hout, List.filter_cons]
    simp only [decide_eq_true_eq]
    rw [if_pos trivial, broadcast_filter_sender]
  · intro b hb hbs
    rw [hout, List.filter_cons]
    have hne : ¬((sender, OutMsg.effectRendered "fire_tornado" p.effectId
        (generateTornadoEffect env config).renderTime
        (generateTornadoEffect env config) env.now).1 = b) := fun hsb => hbs hsb.symm
    simp only [decide_eq_true_eq]
    rw [if_neg hne]
    exact broadcast_filter_other st.clients sender b _ hnd hb hbs
  · intro m hm hbm
    rw [hout] at hm
    rcases List.mem_cons.mp hm with rfl | hm2
    · cases hbm
    · exact (broadcast_mem _ _ _ _ hm2).2.1

/-- Witness for C2 at concrete inputs: with roster `[0, 1, 2]` and sender
`0`, client 1 receives exactly the broadcast and client 0 exactly the
rendered reply. -/
theorem render_effect_reply_and_broadcast_witness :
    ((handleMessage env0 st012 0 (some renderMsg6)).2.filter fun m => m.1 = 0)
        = [(0, .effectRendered "fire_tornado" (some 42)
            (generateTornadoEffect env0 cfg6).renderTime
            (generateTornadoEffect env0 cfg6) env0.now)] ∧
    ((handleMessage env0 st012 0 (some renderMsg6)).2.filter fun m => m.1 = 1)
        = [(1, .effectBroadcast "fire_tornado" cfg6.position
            cfg6.parameters env0.now)] := by
  obtain ⟨h1, h2, -⟩ :=
    render_effect_reply_and_broadcast env0 st012 0 renderMsg6 cfg6
      (by decide) rfl rfl rfl
  exact ⟨h1, h2 1 (by decide) (by decide)⟩

/-- Folding `accept` over a duplicate-free list of fresh connections
appends exactly those connections to the roster. -/
theorem foldl_accept_clients (as : List ℕ) (st : ServerState)
    (hfresh : ∀ a ∈ as, a ∉ st.clients) (hnd : as.Nodup) :
    (as.foldl accept st).clients = st.clients ++ as := by
  induction as generalizing st with
  | nil => simp
  | cons a t ih =>
    rw [List.nodup_cons] at hnd
    have hstep : accept st a = { st with clients := st.clients ++ [a] } := by
      simp [accept, hfresh a (List.mem_cons_self a t)]
    rw [List.foldl_cons, hstep, ih _ ?_ hnd.2]
    · simp
    · intro b hb
      simp only [List.mem_append, List.mem_singleton]
      rintro (hcl | rfl)
      · exact hfresh b (List.mem_cons_of_mem a hb) hcl
      · exact hnd.1 hb

/-- Folding `closeConn` acts on the roster as folding `List.erase`. -/
theorem foldl_closeConn_clients (cs : List ℕ) (st : ServerState) :
    (cs.foldl closeConn st).clients = cs.foldl List.erase st.clients := by
  induction cs generalizing st with
  | nil => rfl
  | cons c t ih => rw [List.foldl_cons, List.foldl_cons, ih]; rfl

/-- Erasing each element of a duplicate-free sublist shortens a
duplicate-free list by exactly the sublist's length. -/
theorem foldl_erase_length (cs : List ℕ) (l : List ℕ) (hnd : cs.Nodup)
    (hsub : ∀ c ∈ cs, c ∈ l) (hl : l.Nodup) :
    (cs.foldl List.erase l).length = l.length - cs.length := by
  induction cs generalizing l with
  | nil => rfl
  | cons c t ih =>
    rw [List.nodup_cons] at hnd
    have hc : c ∈ l := hsub c (List.mem_cons_self c t)
    have hlen : (l.erase c).length = l.length - 1 := List.length_erase_of_mem hc
    have hpos : 0 < l.length := List.length_pos_of_mem hc
    rw [List.foldl_cons, ih _ hnd.2 ?_ (hl.erase c), hlen]
    · simp only [List.length_cons]
      omega
    · intro b hb
      exact (List.mem_erase_of_ne fun hbc => hnd.1 (by rwa [hbc] at hb)).mpr
        (hsub b (List.mem_cons_of_mem c hb))

/-- Membership survives an erase-fold only if it held initially. -/
theorem mem_of_mem_foldl_erase (cs l : List ℕ) (x : ℕ)
    (hx : x ∈ cs.foldl List.erase l) : x ∈ l := by
  induction cs generalizing l with
  | nil => exact hx
  | cons c t ih => exact List.mem_of_mem_erase (ih _ hx)

/-- An element of the erased sublist is gone from a duplicate-free list
after the erase-fold. -/
theorem not_mem_foldl_erase (cs l : List ℕ) (c : ℕ) (hc : c ∈ cs)
    (hl : l.Nodup) : c ∉ cs.foldl List.erase l := by
  induction cs generalizing l with
  | nil => cases hc
  | cons a t ih =>
    rcases List.mem_cons.mp hc with rfl | hct
    · intro habs
      have := mem_of_mem_foldl_erase t (l.erase c) c habs
      exact ((hl.mem_erase_iff.mp this).1) rfl
    · exact ih _ hct (hl.erase a)

/-- A connection absent from the roster is never targeted by any effect
broadcast the handler emits. -/
theorem handleMessage_broadcast_recipients (env : Env) (st : ServerState)
    (sender : ℕ) (raw : Option ParsedMsg) (c : ℕ) (hc : c ∉ st.clients) :
    ∀ m ∈ (handleMessage env st sender raw).2, m.2.isBroadcast = true → m.1 ≠ c := by
  intro m hm hbm
  cases raw with
  | none => cases hm
  | some p =>
    by_cases h : p.command = some "render_effect" ∧ p.effectType = some "fire_tornado"
    · rcases hcfg : p.config with - | config
      · rw [handleMessage] at hm
        simp only [h, if_true, hcfg] at hm
        cases hm
      · rw [handleMessage] at hm
        simp only [h, if_true, hcfg] at hm
        rcases List.mem_cons.mp hm with rfl | hm2
        · cases hbm
        · intro hmc
          exact hc (hmc ▸ (broadcast_mem _ _ _ _ hm2).1)
    · rw [handleMessage] at hm
      simp only [h, if_false] at hm
      rcases List.mem_cons.mp hm with rfl | hm2
      · cases hbm
      · cases hm2

/-- Claim C7: starting from the empty roster, `N` accepts of distinct
connections followed by `M ≤ N` closes (of distinct, previously accepted
connections) leave the roster with exactly `N − M` entries, and a closed
connection is never among the recipients of any subsequently triggered
effect broadcast. -/
theorem roster_bookkeeping (as cs : List ℕ)
    (hnd : as.Nodup) (hcs : cs.Nodup) (hsub : ∀ x ∈ cs, x ∈ as) :
    (cs.foldl closeConn (as.foldl accept initialState)).clients.length
        = as.length - cs.length ∧
    ∀ c ∈ cs, ∀ (env : Env) (sender : ℕ) (raw : Option ParsedMsg),
      ∀ m ∈ (handleMessage env (cs.foldl closeConn (as.foldl accept initialState))
          sender raw).2,
        m.2.isBroadcast = true → m.1 ≠ c := by
  have hacc : (as.foldl accept initialState).clients = as := by
    rw [foldl_accept_clients as initialState (fun a _ => List.not_mem_nil a) hnd]
    rfl
  have hclose : (cs.foldl closeConn (as.foldl accept initialState)).clients
      = cs.foldl List.erase as := by
    rw [foldl_closeConn_clients, hacc]
  constructor
  · rw [hclose]
    exact foldl_erase_length cs as hcs hsub hnd
  · intro c hc env sender raw
    apply handleMessage_broadcast_recipients
    rw [hclose]
    exact not_mem_foldl_erase cs as c hc hnd

/-- Witness for C7 at a concrete input: three accepts and one close leave
two open connections, and the closed connection 2 receives no broadcast
from a subsequent render triggered by connection 0. -/
theorem roster_bookkeeping_witness :
    ([2].foldl closeConn ([0, 1, 2].foldl accept initialState)).clients.length = 2 ∧
    ∀ m ∈ (handleMessage env0
        ([2].foldl closeConn ([0, 1, 2].foldl accept initialState))
        0 (some renderMsg6)).2,
      m.2.isBroadcast = true → m.1 ≠ 2 := by
  obtain ⟨h1, h2⟩ :=
    roster_bookkeeping [0, 1, 2] [2] (by decide) (by decide) (by decide)
  exact ⟨h1, h2 2 (by decide) env0 0 (some renderMsg6)⟩

/-- Counterexample to claim C3: a render command whose config has
`spiralLayers = 0` and `particleCount = 1` is not rejected — the server
replies with an `effect_rendered` payload whose single particle has a
non-finite (`none`, i.e. NaN) `layer` value, propagated to the client. -/
theorem zero_layers_counterexample :
    (handleMessage env0 stA 0 (some msgZeroL)).2
        = [(0, .effectRendered "fire_tornado" (some 1) env0.renderTime
            (generateTornadoEffect env0 cfgZeroL) env0.now)] ∧
    ((generateTornadoEffect env0 cfgZeroL).particles.map Particle.layer)
        = [none] := by
  constructor
  · rfl
  · rfl

/-- Claim C3 amended: no validation or guarding happens — the generator
runs unconditionally, the reply is sent first and carries the payload;
with `spiralLayers = 0` every generated particle has non-finite `layer`,
`radius`, `x`, `z`, `vx` and `vz` values, and only in the degenerate case
`particleCount = 0` is the particle list empty (so nothing non-finite is
propagated there). -/
theorem zero_layers_nan_propagation (env : Env) (st : ServerState) (sender : ℕ)
    (p : ParsedMsg) (config : EffectConfig)
    (hc : p.command = some "render_effect")
    (he : p.effectType = some "fire_tornado")
    (hcfg : p.config = some config)
    (hL : config.parameters.spiralLayers = 0) :
    (handleMessage env st sender (some p)).2.head?
        = some (sender, .effectRendered "fire_tornado" p.effectId
            (generateTornadoEffect env config).renderTime
            (generateTornadoEffect env config) env.now) ∧
    (∀ q ∈ (generateTornadoEffect env config).particles,
      q.layer = none ∧ q.radius = none ∧ q.x = none ∧ q.z = none ∧
        q.vx = none ∧ q.vz = none) ∧
    (config.parameters.particleCount = 0 →
      (generateTornadoEffect env config).particles = []) := by
  refine ⟨by simp [handleMessage, hc, he, hcfg], ?_,
    fun hN => by simp [generateTornadoEffect, hN]⟩
  intro q hq
  have h : (generateTornadoEffect env config).particles
      = (List.range config.parameters.particleCount).map
          (mkParticle env config.position config.parameters) := by
    simp [generateTornadoEffect]
  rw [h] at hq
  obtain ⟨i, -, rfl⟩ := List.mem_map.mp hq
  refine ⟨?_, ?_, ?_, ?_, ?_, ?_⟩ <;> simp [mkParticle, jsModNat, hL]

/-- Witness for the amended C3 at the concrete degenerate input. -/
theorem zero_layers_nan_propagation_witness :
    (handleMessage env0 stA 0 (some msgZeroL)).2.head?
        = some (0, .effectRendered "fire_tornado" (some 1)
            (generateTornadoEffect env0 cfgZeroL).renderTime
            (generateTornadoEffect env0 cfgZeroL) env0.now) :=
  (zero_layers_nan_propagation env0 stA 0 msgZeroL cfgZeroL rfl rfl rfl rfl).1
